import Mathlib

/-!
Shallow embedding of the ambient-sound playback state engine from
`src/lib/AudioStateManager.ts` together with the `AudioStateProvider`
wrapper component.

Modelling conventions:
* A mutable `HTMLAudioElement` is modelled by the value type `AudioElem`
  recording the observable fields the engine reads and writes (`src`,
  `volume`, `paused`); JS in-place mutations become functional updates
  threaded through the state.  A successful `play()` sets `paused` to
  `false`, `pause()` sets it to `true`.
* A JS `Record<string, SoundState>` is an insertion-ordered association
  list with JS object semantics: writing an existing key keeps its
  position, writing a new key appends it, `delete` removes it.
* The module-level globals the reducer reads (the `sounds` catalog and
  `Date.now()`) are passed as explicit parameters.
* Volumes are exact rationals, times are integers (milliseconds).
* A runtime `SoundState` object can lack the `isPlaying` key (the
  `SET_VOLUME` arm spreads a possibly-undefined previous entry), so the
  field is modelled as `Option Bool`.
-/

structure Sound where
  id : String
  name : String
  audioSrc : String
deriving DecidableEq, Repr

structure AudioElem where
  src : String
  volume : ℚ
  paused : Bool
deriving DecidableEq, Repr

structure ActiveSound where
  sound : Sound
  audio : AudioElem
  volume : ℚ
deriving DecidableEq, Repr

structure SoundState where
  volume : ℚ
  isPlaying : Option Bool
deriving DecidableEq, Repr

inductive TimerOption where
  | min5 | min15 | min30 | min45 | min60 | min75 | min90 | endless
deriving DecidableEq, Repr

structure SoundMix where
  name : String
  description : String
  sounds : List (String × ℚ)
deriving DecidableEq, Repr

structure AudioState where
  activeSounds : List ActiveSound
  masterVolume : ℚ
  isPlaying : Bool
  timer : TimerOption
  timeRemaining : Option ℤ
  timerEndTime : Option ℤ
  soundStates : List (String × SoundState)
deriving DecidableEq, Repr

inductive AudioAction where
  | toggleSound (sound : Sound)
  | setVolume (soundId : String) (volume : ℚ)
  | setMasterVolume (volume : ℚ)
  | togglePlayPause
  | setTimer (timer : TimerOption)
  | cancelTimer
  | updateTimer (timeRemaining : Option ℤ)
  | pauseAllSounds
  | playAllSounds
  | applyMix (mix : SoundMix)
  | saveCustomMix (mix : SoundMix)
  | initState (savedState : List (String × SoundState))
deriving DecidableEq, Repr

def MAX_CONCURRENT_SOUNDS : Nat := 3

def initialAudioState : AudioState :=
  { activeSounds := []
    masterVolume := 7/10
    isPlaying := false
    timer := .endless
    timeRemaining := none
    timerEndTime := none
    soundStates := [] }

/-- Lookup in a JS-object-style association list (`Record<string, SoundState>`). -/
def recFind (m : List (String × SoundState)) (k : String) : Option SoundState :=
  (m.find? (fun kv => kv.1 == k)).map (fun kv => kv.2)

/-- JS object key write: an existing key is updated in place, a new key is appended. -/
def recSet (m : List (String × SoundState)) (k : String) (v : SoundState) :
    List (String × SoundState) :=
  if m.any (fun kv => kv.1 == k) then
    m.map (fun kv => if kv.1 == k then (k, v) else kv)
  else m ++ [(k, v)]

/-- JS `delete obj[k]`. -/
def recDelete (m : List (String × SoundState)) (k : String) :
    List (String × SoundState) :=
  m.filter (fun kv => !(kv.1 == k))

/-- `createAudioElement`: a fresh `Audio(sound.audioSrc)` with
`volume = volume * masterVolume`; a freshly constructed element is paused. -/
def createAudioElement (sound : Sound) (volume masterVolume : ℚ) : AudioElem :=
  { src := sound.audioSrc, volume := volume * masterVolume, paused := true }

/-- The play-with-source-reset side effect used by `TOGGLE_PLAY_PAUSE` and
`PLAY_ALL_SOUNDS`: play directly when the element has a source, otherwise
reset the source from the catalog entry and play, otherwise do nothing. -/
def playAudioElem (sound : Sound) (a : AudioElem) : AudioElem :=
  if sound.audioSrc != "" && a.src != "" then { a with paused := false }
  else if sound.audioSrc != "" then { a with src := sound.audioSrc, paused := false }
  else a

/-- `findIndex` + `splice(i, 1)`: remove the first active sound whose id matches. -/
def removeFirstBy : List ActiveSound → String → List ActiveSound
  | [], _ => []
  | as :: rest, i => if as.sound.id == i then rest else as :: removeFirstBy rest i

/-- The volume a freshly toggled-on sound gets:
`savedState?.volume ? savedState.volume / 100 : 1` (JS truthiness: a saved
volume of 0 falls through to the default 1). -/
def toggleOnVolume (state : AudioState) (sound : Sound) : ℚ :=
  match recFind state.soundStates sound.id with
  | some saved => if saved.volume ≠ 0 then saved.volume / 100 else 1
  | none => 1

/-- One iteration of the `APPLY_MIX` per-entry loop.  `state` is the pre-action
state (the source consults `currentActiveSoundMap`, built before any removal,
and the pre-action `masterVolume` / `isPlaying`). -/
def applyMixStep (sounds : List Sound) (state : AudioState)
    (acc : List ActiveSound × List (String × SoundState)) (e : String × ℚ) :
    List ActiveSound × List (String × SoundState) :=
  let id := e.1
  let normalizedVolume := e.2
  if state.activeSounds.any (fun as => as.sound.id == id) then
    -- update volume for the already-active sound
    let a1 := acc.1.map (fun as =>
      if as.sound.id == id then
        { as with
          audio := { as.audio with volume := normalizedVolume * state.masterVolume }
          volume := normalizedVolume }
      else as)
    let a2 := recSet acc.2 id
      { volume := normalizedVolume * 100
        isPlaying := match recFind acc.2 id with
                     | some ss => ss.isPlaying
                     | none => none }
    (a1, a2)
  else
    -- add a new sound from the mix, when the catalog has it
    match sounds.find? (fun s => s.id == id) with
    | none => acc
    | some sound =>
      let audio0 := createAudioElement sound normalizedVolume state.masterVolume
      let audio := if state.isPlaying then { audio0 with paused := false } else audio0
      (acc.1 ++ [{ sound := sound, audio := audio, volume := normalizedVolume }],
       recSet acc.2 id
         { volume := normalizedVolume * 100, isPlaying := some state.isPlaying })

/-- The reducer (`audioReducer`).  `sounds` is the module-level catalog the
`APPLY_MIX` arm consults, `now` is `Date.now()` at dispatch time. -/
def audioReducer (sounds : List Sound) (now : ℤ) (state : AudioState)
    (action : AudioAction) : AudioState :=
  match action with
  | .toggleSound sound =>
    if state.activeSounds.any (fun as => as.sound.id == sound.id) then
      -- remove the sound: pause and release its element, drop it, drop its entry
      let newActiveSounds := removeFirstBy state.activeSounds sound.id
      let newSoundStates := recDelete state.soundStates sound.id
      let newIsPlaying := if newActiveSounds.length == 0 then false else state.isPlaying
      { state with
        activeSounds := newActiveSounds
        soundStates := newSoundStates
        isPlaying := newIsPlaying }
    else
      if state.activeSounds.length ≥ MAX_CONCURRENT_SOUNDS then
        state -- no change if max sounds reached
      else
        let volume : ℚ := toggleOnVolume state sound
        let audio0 := createAudioElement sound volume state.masterVolume
        let audio := if state.isPlaying then { audio0 with paused := false } else audio0
        let newSoundStates := recSet state.soundStates sound.id
          { volume := volume * 100, isPlaying := some state.isPlaying }
        { state with
          activeSounds := state.activeSounds ++ [{ sound := sound, audio := audio, volume := volume }]
          soundStates := newSoundStates
          isPlaying := state.isPlaying }
  | .setVolume soundId volume =>
    let newActiveSounds := state.activeSounds.map (fun as =>
      if as.sound.id == soundId then
        { as with
          audio := { as.audio with volume := volume * state.masterVolume }
          volume := volume }
      else as)
    let newSoundStates := recSet state.soundStates soundId
      { volume := volume * 100
        isPlaying := match recFind state.soundStates soundId with
                     | some ss => ss.isPlaying
                     | none => none }
    { state with activeSounds := newActiveSounds, soundStates := newSoundStates }
  | .setMasterVolume volume =>
    let newActiveSounds := state.activeSounds.map (fun as =>
      { as with audio := { as.audio with volume := as.volume * volume } })
    { state with masterVolume := volume, activeSounds := newActiveSounds }
  | .togglePlayPause =>
    let newIsPlaying := !state.isPlaying
    let newActiveSounds := state.activeSounds.map (fun as =>
      if newIsPlaying then { as with audio := playAudioElem as.sound as.audio }
      else { as with audio := { as.audio with paused := true } })
    let newSoundStates := state.soundStates.map (fun kv =>
      (kv.1, { kv.2 with isPlaying := some newIsPlaying }))
    { state with
      isPlaying := newIsPlaying
      activeSounds := newActiveSounds
      soundStates := newSoundStates }
  | .setTimer timer =>
    if timer = .endless then
      { state with timer := .endless, timeRemaining := none, timerEndTime := none }
    else
      -- calculate minutes based on option
      let minutes : ℤ :=
        match timer with
        | .min5 => 5 | .min15 => 15 | .min30 => 30 | .min45 => 45
        | .min60 => 60 | .min75 => 75 | .min90 => 90 | .endless => 0
      let milliseconds := minutes * 60 * 1000
      { state with
        timer := timer
        timeRemaining := some milliseconds
        timerEndTime := some (now + milliseconds) }
  | .cancelTimer =>
    { state with timer := .endless, timeRemaining := none, timerEndTime := none }
  | .updateTimer tr =>
    { state with timeRemaining := tr }
  | .pauseAllSounds =>
    let newActiveSounds := state.activeSounds.map (fun as =>
      { as with audio := { as.audio with paused := true } })
    let newSoundStates := state.soundStates.map (fun kv =>
      (kv.1, { kv.2 with isPlaying := some false }))
    { state with
      isPlaying := false
      activeSounds := newActiveSounds
      soundStates := newSoundStates }
  | .playAllSounds =>
    let newActiveSounds := state.activeSounds.map (fun as =>
      { as with audio := playAudioElem as.sound as.audio })
    let newSoundStates := state.soundStates.map (fun kv =>
      (kv.1, { kv.2 with isPlaying := some true }))
    { state with
      isPlaying := true
      activeSounds := newActiveSounds
      soundStates := newSoundStates }
  | .applyMix mix =>
    -- remove active sounds not in the mix, then walk the mix entries in order
    let keptActive := state.activeSounds.filter (fun as =>
      mix.sounds.any (fun e => e.1 == as.sound.id))
    let removed := state.activeSounds.filter (fun as =>
      !(mix.sounds.any (fun e => e.1 == as.sound.id)))
    let cleanedStates := removed.foldl (fun m as => recDelete m as.sound.id) state.soundStates
    let res := mix.sounds.foldl (applyMixStep sounds state) (keptActive, cleanedStates)
    { state with activeSounds := res.1, soundStates := res.2 }
  | .saveCustomMix _ => state
  | .initState savedState =>
    { state with soundStates := savedState }

/-! ## The session manager (`AudioStateManager`)

The singleton holds the live state and the countdown interval handle
(`timerInterval`); `timerRunning` models whether that interval is armed. -/

structure Manager where
  state : AudioState
  timerRunning : Bool
deriving DecidableEq, Repr

/-- `AudioStateManager.dispatch`: apply the reducer, then the special timer
handling — `SET_TIMER` with a bounded option starts the tick loop,
`CANCEL_TIMER` stops it, and `SET_TIMER("endless")` does neither. -/
def dispatchM (sounds : List Sound) (now : ℤ) (m : Manager) (action : AudioAction) :
    Manager :=
  let s := audioReducer sounds now m.state action
  { state := s
    timerRunning :=
      match action with
      | .setTimer t => if t = .endless then m.timerRunning else true
      | .cancelTimer => false
      | _ => m.timerRunning }

/-- One firing of the countdown interval callback (`startTimer`, lines
780-797).  The callback only runs while the interval is armed. -/
def timerTick (sounds : List Sound) (now : ℤ) (m : Manager) : Manager :=
  if !m.timerRunning then m
  else
    match m.state.timerEndTime with
    | none => { m with timerRunning := false } -- stopTimer and return
    | some endTime =>
      let remaining := endTime - now
      if remaining ≤ 0 then
        -- timer has finished
        let m1 := dispatchM sounds now m (.updateTimer (some 0))
        let m2 := dispatchM sounds now m1 .pauseAllSounds
        let m3 := dispatchM sounds now m2 .cancelTimer
        { m3 with timerRunning := false } -- stopTimer
      else
        dispatchM sounds now m (.updateTimer (some remaining))

/-! ## The `AudioStateProvider` wrapper (toggle with toast) -/

/-- The ephemeral notifications the provider-level `toggleSound` can emit. -/
inductive ToastMsg where
  | capacityChaos
  | removed (name : String)
  | nowPlaying (name : String)
deriving DecidableEq, Repr

/-- The provider-level `toggleSound` wrapper: at capacity it emits the
distinguishable at-capacity toast and does not dispatch; otherwise it
dispatches and emits the removed / now-playing toast. -/
def providerToggleSound (sounds : List Sound) (now : ℤ) (m : Manager)
    (sound : Sound) : Manager × ToastMsg :=
  let isActive := m.state.activeSounds.any (fun as => as.sound.id == sound.id)
  if !isActive && decide (m.state.activeSounds.length ≥ 3) then
    (m, .capacityChaos)
  else
    let m1 := dispatchM sounds now m (.toggleSound sound)
    (m1, if isActive then .removed sound.name else .nowPlaying sound.name)

/-! ## Startup restore (`loadSavedState`) -/

/-- `AudioStateManager.loadSavedState`: restore the persisted per-sound
settings (as not playing), then toggle on every persisted sound with a
positive volume that the catalog knows, keeping `isPlaying` false around
the re-activation. -/
def loadSavedState (sounds : List Sound) (now : ℤ) (m : Manager)
    (parsedState : List (String × SoundState)) : Manager :=
  let restoredState := parsedState.map (fun kv =>
    ((kv.1 : String), ({ volume := kv.2.volume, isPlaying := some false } : SoundState)))
  let m1 := dispatchM sounds now m (.initState restoredState)
  let m2 := { m1 with state := { m1.state with isPlaying := false } }
  let m3 := parsedState.foldl (fun acc kv =>
      match sounds.find? (fun s => s.id == kv.1) with
      | some sound => if kv.2.volume > 0 then dispatchM sounds now acc (.toggleSound sound) else acc
      | none => acc) m2
  { m3 with state := { m3.state with isPlaying := false } }

/-! ## The crossfade (`attachCrossfadeListener`) -/

/-- The closure environment `attachCrossfadeListener` captures when an audio
element is created: the track volume and master volume at creation time. -/
structure CrossfadeCtx where
  volume : ℚ
  masterVolume : ℚ
deriving DecidableEq, Repr

def fadeSteps : Nat := 60

/-- One firing of the fade interval on the uninterrupted path (source lines
210-218): quadratic easing of the outgoing and incoming gains. -/
def fadeIntervalStep (oldInitialVolume targetVolume : ℚ)
    (p : AudioElem × AudioElem) (currentStep : Nat) : AudioElem × AudioElem :=
  let progress : ℚ := (currentStep : ℚ) / (fadeSteps : ℚ)
  let easedProgress := progress * progress
  ({ p.1 with volume := oldInitialVolume * (1 - easedProgress) },
   { p.2 with volume := targetVolume * easedProgress })

/-- A crossfade that runs all 60 steps to completion without interruption:
the fresh incoming element starts at gain 0 and playing, the 60 interval
steps run, then the outgoing element is paused and released (`src = ""`),
the incoming gain is snapped exactly to `targetVolume`, and the swap
notification (`onCrossfade`) fires (the `Bool` component). -/
def crossfadeComplete (sound : Sound) (ctx : CrossfadeCtx) (audio : AudioElem) :
    AudioElem × AudioElem × Bool :=
  let targetVolume := ctx.volume * ctx.masterVolume
  let oldInitialVolume := audio.volume
  let newAudio0 : AudioElem := { src := sound.audioSrc, volume := 0, paused := false }
  let stepped := (List.range fadeSteps).foldl
    (fun p i => fadeIntervalStep oldInitialVolume targetVolume p (i + 1))
    (audio, newAudio0)
  ({ stepped.1 with paused := true, src := "" },
   { stepped.2 with volume := targetVolume },
   true)

/-- The `CrossfadeCtx` captured when the `TOGGLE_SOUND` arm creates the
element (source lines 280-284): the freshly computed track volume and the
then-current master volume. -/
def toggleCaptureCtx (state : AudioState) (sound : Sound) : CrossfadeCtx :=
  { volume := toggleOnVolume state sound, masterVolume := state.masterVolume }

/-! ## Derived descriptions used in theorem statements -/

/-- How one `APPLY_MIX` entry updates an already-active track: the first mix
entry matching the track id sets its volume and effective gain. -/
def updateFromMix (state : AudioState) (mixSounds : List (String × ℚ))
    (as : ActiveSound) : ActiveSound :=
  match mixSounds.find? (fun e => e.1 == as.sound.id) with
  | some e =>
    { as with
      audio := { as.audio with volume := e.2 * state.masterVolume }
      volume := e.2 }
  | none => as

/-- The tracks `APPLY_MIX` creates: one per mix entry whose id is not active
and is in the catalog, at the mix volume, playing iff `isPlaying` holds. -/
def createdFromMix (sounds : List Sound) (state : AudioState)
    (mixSounds : List (String × ℚ)) : List ActiveSound :=
  mixSounds.filterMap (fun e =>
    if state.activeSounds.any (fun as => as.sound.id == e.1) then none
    else (sounds.find? (fun s => s.id == e.1)).map (fun sound =>
      { sound := sound
        audio := { src := sound.audioSrc
                   volume := e.2 * state.masterVolume
                   paused := !state.isPlaying }
        volume := e.2 }))

/-- The track the startup restore re-activates for one persisted entry:
present exactly when the catalog knows the id and the saved volume is
positive, at volume `saved / 100`, paused. -/
def restoredTrack (sounds : List Sound) (masterVolume : ℚ)
    (kv : String × SoundState) : Option ActiveSound :=
  match sounds.find? (fun s => s.id == kv.1) with
  | some sound =>
    if kv.2.volume > 0 then
      some { sound := sound
             audio := { src := sound.audioSrc
                        volume := (kv.2.volume / 100) * masterVolume
                        paused := true }
             volume := kv.2.volume / 100 }
    else none
  | none => none

/-! ## Helper lemmas -/

lemma any_id_eq_false {l : List ActiveSound} {i : String}
    (h : ∀ as ∈ l, as.sound.id ≠ i) :
    l.any (fun as => as.sound.id == i) = false := by
  simp only [List.any_eq_false]
  intro as hmem
  simp [h as hmem]

lemma recFind_eq_none {m : List (String × SoundState)} {k : String}
    (h : ∀ kv ∈ m, kv.1 ≠ k) : recFind m k = none := by
  unfold recFind
  rw [List.find?_eq_none.mpr]
  · rfl
  · intro kv hmem
    simp [h kv hmem]

lemma any_key_eq_false {m : List (String × SoundState)} {k : String}
    (h : recFind m k = none) : m.any (fun kv => kv.1 == k) = false := by
  unfold recFind at h
  simp only [List.any_eq_false]
  intro kv hmem hk
  have := List.find?_eq_none.mp (by
    cases hf : m.find? (fun kv => kv.1 == k) with
    | none => rfl
    | some x => rw [hf] at h; simp at h) kv hmem
  exact this hk

lemma recSet_of_find_none {m : List (String × SoundState)} {k : String}
    (v : SoundState) (h : recFind m k = none) : recSet m k v = m ++ [(k, v)] := by
  unfold recSet
  rw [any_key_eq_false h]
  simp

lemma recDelete_eq_self {m : List (String × SoundState)} {k : String}
    (h : recFind m k = none) : recDelete m k = m := by
  unfold recDelete
  rw [List.filter_eq_self]
  intro kv hmem
  have := any_key_eq_false h
  simp only [List.any_eq_false] at this
  simp [this kv hmem]

lemma recDelete_append_singleton {m : List (String × SoundState)} {k : String}
    (v : SoundState) (h : recFind m k = none) :
    recDelete (m ++ [(k, v)]) k = m := by
  unfold recDelete
  rw [List.filter_append]
  have h1 : m.filter (fun kv => !(kv.1 == k)) = m := recDelete_eq_self h
  unfold recDelete at h1
  rw [h1]
  simp

lemma removeFirstBy_append {l : List ActiveSound} {t : ActiveSound} {i : String}
    (h : ∀ as ∈ l, as.sound.id ≠ i) (ht : t.sound.id = i) :
    removeFirstBy (l ++ [t]) i = l := by
  induction l with
  | nil => simp [removeFirstBy, ht]
  | cons a rest ih =>
    have ha : (a.sound.id == i) = false := by
      simp [h a (List.mem_cons_self a rest)]
    simp only [List.cons_append, removeFirstBy, ha, Bool.false_eq_true, if_false,
      List.cons.injEq, true_and]
    exact ih (fun as hm => h as (List.mem_cons_of_mem a hm))

lemma length_removeFirstBy_le (l : List ActiveSound) (i : String) :
    (removeFirstBy l i).length ≤ l.length := by
  induction l with
  | nil => simp [removeFirstBy]
  | cons a rest ih =>
    unfold removeFirstBy
    by_cases h : (a.sound.id == i) = true
    · simp [h]
    · simp only [Bool.not_eq_true] at h
      simp only [h, Bool.false_eq_true, if_false, List.length_cons]
      omega

lemma recFind_of_mem_nodup {m : List (String × SoundState)} {k : String}
    {v : SoundState} (hnd : (m.map Prod.fst).Nodup) (hm : (k, v) ∈ m) :
    recFind m k = some v := by
  induction m with
  | nil => simp at hm
  | cons a rest ih =>
    rcases List.mem_cons.mp hm with heq | hmem
    · subst heq
      simp [recFind, List.find?]
    · have hk : a.1 ≠ k := by
        intro hak
        have : k ∈ rest.map Prod.fst := List.mem_map.mpr ⟨(k, v), hmem, rfl⟩
        rw [List.map_cons, List.nodup_cons] at hnd
        exact hnd.1 (hak ▸ this)
      have hbk : (a.1 == k) = false := by simp [hk]
      simp only [recFind, List.find?, hbk]
      exact ih (by rw [List.map_cons, List.nodup_cons] at hnd; exact hnd.2) hmem

lemma map_update_eq_self {m : List (String × SoundState)} {k : String}
    {v : SoundState} (h : ∀ kv ∈ m, kv.1 ≠ k) :
    m.map (fun kv => if kv.1 == k then (k, v) else kv) = m := by
  induction m with
  | nil => rfl
  | cons a rest ih =>
    have ha : (a.1 == k) = false := by simp [h a (List.mem_cons_self a rest)]
    simp only [List.map_cons, ha, Bool.false_eq_true, if_false]
    rw [ih (fun kv hm => h kv (List.mem_cons_of_mem a hm))]

lemma recSet_eq_self {m : List (String × SoundState)} {k : String}
    {v : SoundState} (hnd : (m.map Prod.fst).Nodup) (hm : (k, v) ∈ m) :
    recSet m k v = m := by
  unfold recSet
  have hany : m.any (fun kv => kv.1 == k) = true :=
    List.any_eq_true.mpr ⟨(k, v), hm, by simp⟩
  rw [if_pos hany]
  induction m with
  | nil => simp at hm
  | cons a rest ih =>
    rw [List.map_cons, List.nodup_cons] at hnd
    rcases List.mem_cons.mp hm with heq | hmem
    · subst heq
      have hk : ∀ kv ∈ rest, kv.1 ≠ k := by
        intro kv hkv hkk
        exact hnd.1 (List.mem_map.mpr ⟨kv, hkv, hkk⟩)
      simp only [List.map_cons, ite_self, List.cons.injEq, true_and]
      exact map_update_eq_self hk
    · have hak : a.1 ≠ k := by
        intro hak
        exact hnd.1 (hak ▸ List.mem_map.mpr ⟨(k, v), hmem, rfl⟩)
      have hba : (a.1 == k) = false := by simp [hak]
      have hany2 : rest.any (fun kv => kv.1 == k) = true :=
        List.any_eq_true.mpr ⟨(k, v), hmem, by simp⟩
      simp only [List.map_cons, hba, Bool.false_eq_true, if_false, List.cons.injEq, true_and]
      exact ih hnd.2 hmem hany2

lemma recFind_map_update (m : List (String × SoundState)) (k : String)
    (v : SoundState) (h : m.any (fun kv => kv.1 == k) = true) :
    recFind (m.map (fun kv => if kv.1 == k then (k, v) else kv)) k = some v := by
  induction m with
  | nil => simp at h
  | cons a rest ih =>
    by_cases hk : (a.1 == k) = true
    · simp only [List.map_cons, hk, if_true]
      unfold recFind
      rw [List.find?_cons_of_pos _ (by simp)]
      rfl
    · have hkf : (a.1 == k) = false := by simpa using hk
      have hany : rest.any (fun kv => kv.1 == k) = true := by
        simpa [List.any_cons, hkf] using h
      simp only [List.map_cons, hkf, Bool.false_eq_true, if_false]
      unfold recFind
      rw [List.find?_cons_of_neg _ (by simp [hkf])]
      simpa [recFind] using ih hany

lemma recFind_cons_none {a : String × SoundState}
    {rest : List (String × SoundState)} {k : String}
    (h : recFind (a :: rest) k = none) :
    (a.1 == k) = false ∧ recFind rest k = none := by
  unfold recFind at h ⊢
  cases hf : (a :: rest).find? (fun kv => kv.1 == k) with
  | some x => rw [hf] at h; simp at h
  | none =>
    have hall := List.find?_eq_none.mp hf
    refine ⟨by simpa using hall a (by simp), ?_⟩
    rw [List.find?_eq_none.mpr (fun kv hkv => hall kv (by simp [hkv]))]
    rfl

lemma recFind_append_singleton (m : List (String × SoundState)) (k : String)
    (v : SoundState) (h : recFind m k = none) :
    recFind (m ++ [(k, v)]) k = some v := by
  induction m with
  | nil =>
    unfold recFind
    rw [List.nil_append, List.find?_cons_of_pos _ (by simp)]
    rfl
  | cons a rest ih =>
    obtain ⟨ha, hrest⟩ := recFind_cons_none h
    unfold recFind
    rw [List.cons_append, List.find?_cons_of_neg _ (by simp [ha])]
    simpa [recFind] using ih hrest

lemma recFind_recSet_self (m : List (String × SoundState)) (k : String)
    (v : SoundState) : recFind (recSet m k v) k = some v := by
  unfold recSet
  by_cases h : m.any (fun kv => kv.1 == k) = true
  · rw [if_pos h]
    exact recFind_map_update m k v h
  · rw [if_neg h]
    apply recFind_append_singleton
    apply recFind_eq_none
    intro kv hkv hk
    simp only [Bool.not_eq_true, List.any_eq_false] at h
    have hkv2 := h kv hkv
    rw [hk] at hkv2
    simp at hkv2

lemma map_eq_self_of_eq {α : Type} {l : List α} {f : α → α}
    (h : ∀ a ∈ l, f a = a) : l.map f = l := by
  induction l with
  | nil => rfl
  | cons a rest ih =>
    rw [List.map_cons, h a (List.mem_cons_self a rest),
      ih (fun x hx => h x (List.mem_cons_of_mem a hx))]

/-- The `TOGGLE_SOUND` arm at capacity: a pure no-op. -/
lemma toggle_at_capacity {sounds : List Sound} {now : ℤ} {state : AudioState}
    {sound : Sound}
    (hany : state.activeSounds.any (fun as => as.sound.id == sound.id) = false)
    (hlen : state.activeSounds.length ≥ MAX_CONCURRENT_SOUNDS) :
    audioReducer sounds now state (.toggleSound sound) = state := by
  simp only [audioReducer]
  rw [hany]
  simp only [Bool.false_eq_true, if_false]
  rw [if_pos hlen]

/-- The `TOGGLE_SOUND` arm below capacity for an inactive sound: the explicit
shape of the successor state. -/
lemma toggle_on_eq {sounds : List Sound} {now : ℤ} {state : AudioState}
    {sound : Sound}
    (hany : state.activeSounds.any (fun as => as.sound.id == sound.id) = false)
    (hlen : ¬ state.activeSounds.length ≥ MAX_CONCURRENT_SOUNDS) :
    audioReducer sounds now state (.toggleSound sound) =
      { state with
        activeSounds := state.activeSounds ++
          [{ sound := sound
             audio :=
               if state.isPlaying then
                 { createAudioElement sound (toggleOnVolume state sound) state.masterVolume
                   with paused := false }
               else createAudioElement sound (toggleOnVolume state sound) state.masterVolume
             volume := toggleOnVolume state sound }]
        soundStates := recSet state.soundStates sound.id
          { volume := toggleOnVolume state sound * 100
            isPlaying := some state.isPlaying }
        isPlaying := state.isPlaying } := by
  simp only [audioReducer]
  rw [hany]
  simp only [Bool.false_eq_true, if_false]
  rw [if_neg hlen]

/-! ## Concrete fixtures -/

def rainS : Sound := { id := "rain", name := "Rain", audioSrc := "rain.mp3" }

def windS : Sound := { id := "wind", name := "Wind", audioSrc := "wind.mp3" }

def fireS : Sound := { id := "fire", name := "Fire", audioSrc := "fire.mp3" }

def birdS : Sound := { id := "birds", name := "Birds", audioSrc := "birds.mp3" }

def sampleCatalog : List Sound := [rainS, windS, fireS, birdS]

/-- A sequence of `TOGGLE_SOUND` dispatches. -/
def applyToggles (sounds : List Sound) (now : ℤ) (state : AudioState)
    (toggles : List Sound) : AudioState :=
  toggles.foldl (fun s t => audioReducer sounds now s (.toggleSound t)) state

/-- A reachable state with three active tracks. -/
def threeActiveState : AudioState :=
  applyToggles sampleCatalog 0 initialAudioState [rainS, windS, fireS]

/-- A state with a persisted setting (volume 50) for an inactive sound. -/
def savedRainState : AudioState :=
  { initialAudioState with
    soundStates := [("rain", { volume := 50, isPlaying := some false })] }

/-- A state with a persisted volume of exactly 0 for an inactive sound. -/
def zeroSavedRainState : AudioState :=
  { initialAudioState with
    soundStates := [("rain", { volume := 0, isPlaying := some false })] }

lemma toggle_length_le (sounds : List Sound) (now : ℤ) (state : AudioState)
    (sound : Sound) (h : state.activeSounds.length ≤ 3) :
    (audioReducer sounds now state (.toggleSound sound)).activeSounds.length ≤ 3 := by
  by_cases hany : state.activeSounds.any (fun as => as.sound.id == sound.id) = true
  · simp only [audioReducer]
    rw [if_pos hany]
    show (removeFirstBy state.activeSounds sound.id).length ≤ 3
    exact le_trans (length_removeFirstBy_le _ _) h
  · have hany2 : state.activeSounds.any (fun as => as.sound.id == sound.id) = false := by
      simpa using hany
    by_cases hlen : state.activeSounds.length ≥ MAX_CONCURRENT_SOUNDS
    · rw [toggle_at_capacity hany2 hlen]
      exact h
    · rw [toggle_on_eq hany2 hlen]
      show (state.activeSounds ++ [_]).length ≤ 3
      rw [List.length_append]
      simp only [MAX_CONCURRENT_SOUNDS, ge_iff_le, not_le] at hlen
      simp only [List.length_singleton]
      omega

/-- C1: for every sequence of ToggleTrack actions applied to a state
satisfying the invariant `activeSounds.length ≤ 3` (which holds for every
reachable state, the initial state having no tracks), the length of the
active track list never exceeds 3; and a toggle-on of a distinct sound
while 3 are active returns the state unchanged. -/
theorem toggle_capacity_invariant (sounds : List Sound) (now : ℤ)
    (state : AudioState) (toggles : List Sound) (sound : Sound)
    (hinv : state.activeSounds.length ≤ 3) :
    (applyToggles sounds now state toggles).activeSounds.length ≤ 3 ∧
    (state.activeSounds.length = 3 →
      (∀ as ∈ state.activeSounds, as.sound.id ≠ sound.id) →
      audioReducer sounds now state (.toggleSound sound) = state) := by
  constructor
  · induction toggles generalizing state with
    | nil => exact hinv
    | cons t rest ih =>
      simp only [applyToggles, List.foldl_cons]
      exact ih _ (toggle_length_le sounds now state t hinv)
  · intro h3 hdist
    exact toggle_at_capacity (any_id_eq_false hdist)
      (by simp only [MAX_CONCURRENT_SOUNDS, ge_iff_le, h3]; omega)

/-- Witness for C1 at a concrete 3-active state and toggle sequence. -/
theorem toggle_capacity_invariant_witness :
    threeActiveState.activeSounds.length ≤ 3 ∧
    ((applyToggles sampleCatalog 0 threeActiveState [birdS, rainS]).activeSounds.length ≤ 3 ∧
     (threeActiveState.activeSounds.length = 3 →
       (∀ as ∈ threeActiveState.activeSounds, as.sound.id ≠ birdS.id) →
       audioReducer sampleCatalog 0 threeActiveState (.toggleSound birdS) = threeActiveState)) :=
  ⟨by decide,
   toggle_capacity_invariant sampleCatalog 0 threeActiveState [birdS, rainS] birdS (by decide)⟩

/-- C4: toggling a distinct 4th sound while 3 are active is a pure no-op on
the manager and is reported through the provider wrapper as the dedicated
at-capacity toast, which is distinguishable from the removed / now-playing
results, so the caller can act on the rejection. -/
theorem capacity_toggle_distinguishable (sounds : List Sound) (now : ℤ)
    (m : Manager) (sound : Sound)
    (hdist : ∀ as ∈ m.state.activeSounds, as.sound.id ≠ sound.id)
    (h3 : m.state.activeSounds.length = 3) :
    providerToggleSound sounds now m sound = (m, ToastMsg.capacityChaos) ∧
    (∀ nm : String, ToastMsg.capacityChaos ≠ ToastMsg.removed nm ∧
      ToastMsg.capacityChaos ≠ ToastMsg.nowPlaying nm) := by
  refine ⟨?_, fun nm => ⟨by simp, by simp⟩⟩
  unfold providerToggleSound
  rw [any_id_eq_false hdist]
  simp [h3]

/-- Witness for C4 at a concrete 3-active manager. -/
theorem capacity_toggle_distinguishable_witness :
    (∀ as ∈ threeActiveState.activeSounds, as.sound.id ≠ birdS.id) ∧
    threeActiveState.activeSounds.length = 3 ∧
    (providerToggleSound sampleCatalog 0 ⟨threeActiveState, false⟩ birdS =
        (⟨threeActiveState, false⟩, ToastMsg.capacityChaos) ∧
     (∀ nm : String, ToastMsg.capacityChaos ≠ ToastMsg.removed nm ∧
       ToastMsg.capacityChaos ≠ ToastMsg.nowPlaying nm)) :=
  ⟨by decide, by decide,
   capacity_toggle_distinguishable sampleCatalog 0 ⟨threeActiveState, false⟩ birdS
     (by decide) (by decide)⟩

/-- C10: `SET_VOLUME` on a sound id with no active track leaves the active
track list unchanged but still writes a `soundStates` entry with volume
`v * 100`; when no previous entry existed, the written entry carries no
playing flag — so the persisted settings can contain ids that are not
active tracks. -/
theorem setVolume_inactive_frame (sounds : List Sound) (now : ℤ)
    (state : AudioState) (soundId : String) (v : ℚ)
    (hdist : ∀ as ∈ state.activeSounds, as.sound.id ≠ soundId) :
    (audioReducer sounds now state (.setVolume soundId v)).activeSounds =
      state.activeSounds ∧
    recFind (audioReducer sounds now state (.setVolume soundId v)).soundStates soundId =
      some { volume := v * 100
             isPlaying := match recFind state.soundStates soundId with
                          | some ss => ss.isPlaying
                          | none => none } ∧
    (recFind state.soundStates soundId = none →
      recFind (audioReducer sounds now state (.setVolume soundId v)).soundStates soundId =
        some { volume := v * 100, isPlaying := none }) := by
  refine ⟨?_, ?_, ?_⟩
  · simp only [audioReducer]
    show state.activeSounds.map _ = state.activeSounds
    apply map_eq_self_of_eq
    intro as hmem
    have hid : (as.sound.id == soundId) = false := by simp [hdist as hmem]
    simp only [hid, Bool.false_eq_true, if_false]
  · simp only [audioReducer]
    exact recFind_recSet_self _ _ _
  · intro h
    simp only [audioReducer, h]
    exact recFind_recSet_self _ _ _

/-- Witness for C10: setting the volume of inactive "rain" from the initial
state. -/
theorem setVolume_inactive_frame_witness :
    (∀ as ∈ initialAudioState.activeSounds, as.sound.id ≠ "rain") ∧
    ((audioReducer sampleCatalog 0 initialAudioState (.setVolume "rain" (1/2))).activeSounds =
        initialAudioState.activeSounds ∧
     recFind (audioReducer sampleCatalog 0 initialAudioState
        (.setVolume "rain" (1/2))).soundStates "rain" =
      some { volume := (1/2 : ℚ) * 100
             isPlaying := match recFind initialAudioState.soundStates "rain" with
                          | some ss => ss.isPlaying
                          | none => none } ∧
     (recFind initialAudioState.soundStates "rain" = none →
       recFind (audioReducer sampleCatalog 0 initialAudioState
          (.setVolume "rain" (1/2))).soundStates "rain" =
         some { volume := (1/2 : ℚ) * 100, isPlaying := none })) :=
  ⟨by decide,
   setVolume_inactive_frame sampleCatalog 0 initialAudioState "rain" (1/2) (by decide)⟩

/-- C9 (amended): toggling on an inactive sound creates the new track at the
saved volume divided by 100 whenever a saved setting with a nonzero volume
exists, and at the 1.0 default when no saved volume exists or the saved
volume is 0 (the source tests the saved volume for JS truthiness, so a
saved 0 falls back to the default). -/
theorem toggle_on_volume_default (sounds : List Sound) (now : ℤ)
    (state : AudioState) (sound : Sound)
    (hdist : ∀ as ∈ state.activeSounds, as.sound.id ≠ sound.id)
    (hlen : state.activeSounds.length < 3) :
    ((audioReducer sounds now state (.toggleSound sound)).activeSounds.getLast?).map
        (fun as => as.volume) = some (toggleOnVolume state sound) ∧
    (recFind state.soundStates sound.id = none → toggleOnVolume state sound = 1) ∧
    (∀ saved, recFind state.soundStates sound.id = some saved → saved.volume = 0 →
      toggleOnVolume state sound = 1) ∧
    (∀ saved, recFind state.soundStates sound.id = some saved → saved.volume ≠ 0 →
      toggleOnVolume state sound = saved.volume / 100) := by
  refine ⟨?_, ?_, ?_, ?_⟩
  · rw [toggle_on_eq (any_id_eq_false hdist)
      (by simp only [MAX_CONCURRENT_SOUNDS, ge_iff_le, not_le]; omega)]
    simp [List.getLast?_concat]
  · intro h
    simp [toggleOnVolume, h]
  · intro saved h h0
    simp [toggleOnVolume, h, h0]
  · intro saved h h0
    simp [toggleOnVolume, h, h0]

/-- Witness for C9 at a state with a saved volume of 50 for "rain". -/
theorem toggle_on_volume_default_witness :
    (∀ as ∈ savedRainState.activeSounds, as.sound.id ≠ rainS.id) ∧
    savedRainState.activeSounds.length < 3 ∧
    (((audioReducer sampleCatalog 0 savedRainState
          (.toggleSound rainS)).activeSounds.getLast?).map (fun as => as.volume) =
        some (toggleOnVolume savedRainState rainS) ∧
     (recFind savedRainState.soundStates rainS.id = none →
        toggleOnVolume savedRainState rainS = 1) ∧
     (∀ saved, recFind savedRainState.soundStates rainS.id = some saved →
        saved.volume = 0 → toggleOnVolume savedRainState rainS = 1) ∧
     (∀ saved, recFind savedRainState.soundStates rainS.id = some saved →
        saved.volume ≠ 0 → toggleOnVolume savedRainState rainS = saved.volume / 100)) :=
  ⟨by decide, by decide,
   toggle_on_volume_default sampleCatalog 0 savedRainState rainS (by decide) (by decide)⟩

/-- Counterexample for C9 as stated: with a saved volume of exactly 0 for
"rain", the toggled-on track gets volume 1 (the hard-coded default), not
the saved volume over 100 (which would be 0). -/
theorem toggle_on_zero_saved_counterexample :
    recFind zeroSavedRainState.soundStates rainS.id =
      some { volume := 0, isPlaying := some false } ∧
    (audioReducer sampleCatalog 0 zeroSavedRainState
        (.toggleSound rainS)).activeSounds.map (fun as => as.volume) = [1] ∧
    (1 : ℚ) ≠ (0 : ℚ) / 100 := by
  refine ⟨by decide, by decide, by norm_num⟩

/-- C5 (amended): toggling an inactive sound on and then off restores the
active track list, and restores the saved settings when the sound had no
saved entry before the toggle. -/
theorem toggle_on_off_restores (sounds : List Sound) (now : ℤ)
    (state : AudioState) (sound : Sound)
    (hdist : ∀ as ∈ state.activeSounds, as.sound.id ≠ sound.id)
    (hnos : recFind state.soundStates sound.id = none) :
    (audioReducer sounds now
        (audioReducer sounds now state (.toggleSound sound))
        (.toggleSound sound)).activeSounds = state.activeSounds ∧
    (audioReducer sounds now
        (audioReducer sounds now state (.toggleSound sound))
        (.toggleSound sound)).soundStates = state.soundStates := by
  have hany1 := any_id_eq_false hdist
  by_cases hlen : state.activeSounds.length ≥ MAX_CONCURRENT_SOUNDS
  · rw [toggle_at_capacity hany1 hlen, toggle_at_capacity hany1 hlen]
    exact ⟨rfl, rfl⟩
  · rw [toggle_on_eq hany1 hlen]
    have hany2 : ((state.activeSounds ++
        [{ sound := sound
           audio :=
             if state.isPlaying then
               { createAudioElement sound (toggleOnVolume state sound) state.masterVolume
                 with paused := false }
             else createAudioElement sound (toggleOnVolume state sound) state.masterVolume
           volume := toggleOnVolume state sound : ActiveSound }]).any
        (fun as => as.sound.id == sound.id)) = true := by
      simp [List.any_append]
    constructor
    · simp only [audioReducer]
      rw [if_pos hany2]
      show removeFirstBy (state.activeSounds ++ [_]) sound.id = state.activeSounds
      exact removeFirstBy_append hdist rfl
    · simp only [audioReducer]
      rw [if_pos hany2]
      show recDelete (recSet state.soundStates sound.id _) sound.id = state.soundStates
      rw [recSet_of_find_none _ hnos]
      exact recDelete_append_singleton _ hnos

/-- Witness for C5 from the initial state. -/
theorem toggle_on_off_restores_witness :
    (∀ as ∈ initialAudioState.activeSounds, as.sound.id ≠ rainS.id) ∧
    recFind initialAudioState.soundStates rainS.id = none ∧
    ((audioReducer sampleCatalog 0
        (audioReducer sampleCatalog 0 initialAudioState (.toggleSound rainS))
        (.toggleSound rainS)).activeSounds = initialAudioState.activeSounds ∧
     (audioReducer sampleCatalog 0
        (audioReducer sampleCatalog 0 initialAudioState (.toggleSound rainS))
        (.toggleSound rainS)).soundStates = initialAudioState.soundStates) :=
  ⟨by decide, by decide,
   toggle_on_off_restores sampleCatalog 0 initialAudioState rainS (by decide) (by decide)⟩

/-- Counterexample for C5 as stated: when the sound already has a saved
settings entry (volume 50, reachable e.g. via `SET_VOLUME` on an inactive
sound or a restored session), toggling on and then off deletes the entry,
so `soundStates` is not restored to its pre-toggle shape. -/
theorem toggle_on_off_deletes_saved_entry :
    savedRainState.soundStates = [("rain", { volume := 50, isPlaying := some false })] ∧
    (audioReducer sampleCatalog 0
        (audioReducer sampleCatalog 0 savedRainState (.toggleSound rainS))
        (.toggleSound rainS)).activeSounds = savedRainState.activeSounds ∧
    (audioReducer sampleCatalog 0
        (audioReducer sampleCatalog 0 savedRainState (.toggleSound rainS))
        (.toggleSound rainS)).soundStates = [] ∧
    ([] : List (String × SoundState)) ≠ savedRainState.soundStates := by
  refine ⟨by decide, by decide, by decide, by decide⟩

/-- The three states the expired-timer tick broadcasts, in dispatch order:
after the zero tick, after `PAUSE_ALL_SOUNDS`, after `CANCEL_TIMER`. -/
def expiredTickTrace (sounds : List Sound) (tnow : ℤ) (s : AudioState) :
    AudioState × AudioState × AudioState :=
  let s1 := audioReducer sounds tnow s (.updateTimer (some 0))
  let s2 := audioReducer sounds tnow s1 .pauseAllSounds
  let s3 := audioReducer sounds tnow s2 .cancelTimer
  (s1, s2, s3)

/-- C2: `SET_TIMER("15min")` sets `timeRemaining = 900000` ms and a deadline
900000 ms after the current time; and when the armed countdown observes the
deadline has passed, the tick produces, in this order: a zero tick
(`timeRemaining = 0`), then pause-all (every active track paused and
`isPlaying = false`), then cancel (timer endless, remaining and deadline
cleared), and then the tick loop stops. -/
theorem timer_fifteen_and_expiry (sounds : List Sound) (now tnow endTime : ℤ)
    (s : AudioState) (m : Manager)
    (hrun : m.timerRunning = true)
    (hend : m.state.timerEndTime = some endTime)
    (hexp : endTime - tnow ≤ 0) :
    ((audioReducer sounds now s (.setTimer .min15)).timeRemaining = some 900000 ∧
     (audioReducer sounds now s (.setTimer .min15)).timerEndTime = some (now + 900000)) ∧
    ((expiredTickTrace sounds tnow m.state).1.timeRemaining = some 0 ∧
     (∀ as ∈ (expiredTickTrace sounds tnow m.state).2.1.activeSounds,
        as.audio.paused = true) ∧
     (expiredTickTrace sounds tnow m.state).2.1.isPlaying = false ∧
     (expiredTickTrace sounds tnow m.state).2.2.timer = .endless ∧
     (expiredTickTrace sounds tnow m.state).2.2.timeRemaining = none ∧
     (expiredTickTrace sounds tnow m.state).2.2.timerEndTime = none ∧
     timerTick sounds tnow m =
       { state := (expiredTickTrace sounds tnow m.state).2.2, timerRunning := false }) := by
  refine ⟨⟨?_, ?_⟩, ?_, ?_, ?_, ?_, ?_, ?_, ?_⟩
  · simp [audioReducer]
  · simp [audioReducer]
  · simp [expiredTickTrace, audioReducer]
  · intro as hmem
    simp only [expiredTickTrace, audioReducer] at hmem
    obtain ⟨a, _, rfl⟩ := List.mem_map.mp hmem
    rfl
  · simp [expiredTickTrace, audioReducer]
  · simp [expiredTickTrace, audioReducer]
  · simp [expiredTickTrace, audioReducer]
  · simp [expiredTickTrace, audioReducer]
  · simp only [timerTick, hrun, Bool.not_true, Bool.false_eq_true, if_false, hend]
    rw [if_pos hexp]
    simp [dispatchM, expiredTickTrace]

/-- A manager with a 15-minute timer armed and its interval running. -/
def armedManager : Manager :=
  { state := { initialAudioState with
      timer := .min15
      timeRemaining := some 900000
      timerEndTime := some 900000 }
    timerRunning := true }

/-- Witness for C2 at a concrete armed manager whose deadline has passed. -/
theorem timer_fifteen_and_expiry_witness :
    armedManager.timerRunning = true ∧
    armedManager.state.timerEndTime = some 900000 ∧
    (900000 : ℤ) - 1000000 ≤ 0 ∧
    (((audioReducer sampleCatalog 0 initialAudioState (.setTimer .min15)).timeRemaining =
        some 900000 ∧
      (audioReducer sampleCatalog 0 initialAudioState (.setTimer .min15)).timerEndTime =
        some (0 + 900000)) ∧
     ((expiredTickTrace sampleCatalog 1000000 armedManager.state).1.timeRemaining = some 0 ∧
      (∀ as ∈ (expiredTickTrace sampleCatalog 1000000 armedManager.state).2.1.activeSounds,
         as.audio.paused = true) ∧
      (expiredTickTrace sampleCatalog 1000000 armedManager.state).2.1.isPlaying = false ∧
      (expiredTickTrace sampleCatalog 1000000 armedManager.state).2.2.timer = .endless ∧
      (expiredTickTrace sampleCatalog 1000000 armedManager.state).2.2.timeRemaining = none ∧
      (expiredTickTrace sampleCatalog 1000000 armedManager.state).2.2.timerEndTime = none ∧
      timerTick sampleCatalog 1000000 armedManager =
        { state := (expiredTickTrace sampleCatalog 1000000 armedManager.state).2.2
          timerRunning := false })) :=
  ⟨rfl, rfl, by decide,
   timer_fifteen_and_expiry sampleCatalog 0 1000000 900000 initialAudioState
     armedManager rfl rfl (by decide)⟩

/-- Counterexample for C8 as stated: from a manager with an armed tick loop,
`SET_TIMER("endless")` and `CANCEL_TIMER` produce the same state, but the
dispatch of `SET_TIMER("endless")` leaves the tick loop running
(`timerRunning = true`) while `CANCEL_TIMER` stops it synchronously, so the
coordinator behaviour is not the same. -/
theorem cancel_vs_endless_counterexample :
    (dispatchM sampleCatalog 0 armedManager (.setTimer .endless)).state =
      (dispatchM sampleCatalog 0 armedManager .cancelTimer).state ∧
    (dispatchM sampleCatalog 0 armedManager (.setTimer .endless)).timerRunning = true ∧
    (dispatchM sampleCatalog 0 armedManager .cancelTimer).timerRunning = false := by
  refine ⟨by simp [dispatchM, audioReducer], rfl, rfl⟩

/-- C8 (amended): `CANCEL_TIMER` and `SET_TIMER("endless")` produce
identical states; `CANCEL_TIMER` additionally stops the tick loop
synchronously, while `SET_TIMER("endless")` leaves an armed loop running
until its next tick, which then stops it without any further state
change. -/
theorem cancel_equiv_endless (sounds : List Sound) (now tnow : ℤ) (m : Manager) :
    (dispatchM sounds now m (.setTimer .endless)).state =
      (dispatchM sounds now m .cancelTimer).state ∧
    (dispatchM sounds now m .cancelTimer).timerRunning = false ∧
    (timerTick sounds tnow (dispatchM sounds now m (.setTimer .endless))).state =
      (dispatchM sounds now m (.setTimer .endless)).state ∧
    (timerTick sounds tnow (dispatchM sounds now m (.setTimer .endless))).timerRunning =
      false := by
  refine ⟨by simp [dispatchM, audioReducer], rfl, ?_, ?_⟩
  · cases hb : m.timerRunning with
    | false => simp [timerTick, dispatchM, audioReducer, hb]
    | true => simp [timerTick, dispatchM, audioReducer, hb]
  · cases hb : m.timerRunning with
    | false => simp [timerTick, dispatchM, audioReducer, hb]
    | true => simp [timerTick, dispatchM, audioReducer, hb]

/-- C3 (amended): a crossfade that runs to completion ends with the incoming
resource's gain snapped exactly to the captured track volume times the
captured master volume (the values closed over when the crossfade listener
was attached to the element at its creation), with the outgoing resource
paused and released (`src = ""`) and the swap notification emitted. -/
theorem crossfade_completes_at_captured_gain (sound : Sound) (ctx : CrossfadeCtx)
    (audio : AudioElem) :
    (crossfadeComplete sound ctx audio).2.1.volume = ctx.volume * ctx.masterVolume ∧
    (crossfadeComplete sound ctx audio).1.paused = true ∧
    (crossfadeComplete sound ctx audio).1.src = "" ∧
    (crossfadeComplete sound ctx audio).2.2 = true :=
  ⟨rfl, rfl, rfl, rfl⟩

/-- Counterexample for C3 as stated: toggle "rain" on from the initial state
(the crossfade listener captures volume 1 and master volume 7/10), then set
the track's volume to 0.  The track's current volume is now 0, but a
crossfade completing afterwards snaps the incoming gain to the captured
`1 * (7/10)`, not to the current `0 * (7/10)`. -/
theorem crossfade_stale_volume_counterexample :
    toggleCaptureCtx initialAudioState rainS =
      { volume := 1, masterVolume := 7/10 } ∧
    (audioReducer sampleCatalog 0
        (audioReducer sampleCatalog 0 initialAudioState (.toggleSound rainS))
        (.setVolume "rain" 0)).activeSounds.map (fun as => as.volume) = [0] ∧
    (audioReducer sampleCatalog 0
        (audioReducer sampleCatalog 0 initialAudioState (.toggleSound rainS))
        (.setVolume "rain" 0)).masterVolume = 7/10 ∧
    (crossfadeComplete rainS (toggleCaptureCtx initialAudioState rainS)
        { src := "rain.mp3", volume := 7/10, paused := false }).2.1.volume =
      1 * (7/10 : ℚ) ∧
    (1 : ℚ) * (7/10) ≠ (0 : ℚ) * (7/10) := by
  refine ⟨rfl, by decide, rfl, rfl, by norm_num⟩

lemma map_congr_mem {α β : Type} {l : List α} {f g : α → β}
    (h : ∀ a ∈ l, f a = g a) : l.map f = l.map g := by
  induction l with
  | nil => rfl
  | cons a rest ih =>
    rw [List.map_cons, List.map_cons, h a (List.mem_cons_self a rest),
      ih (fun x hx => h x (List.mem_cons_of_mem a hx))]

lemma find_entry_none {rest : List (String × ℚ)} {i : String}
    (h : i ∉ rest.map Prod.fst) :
    rest.find? (fun e => e.1 == i) = none := by
  rw [List.find?_eq_none]
  intro e he hbe
  exact h (List.mem_map.mpr ⟨e, he, by simpa using hbe⟩)

lemma updateFromMix_cons_of_ne {state : AudioState} {e : String × ℚ}
    {rest : List (String × ℚ)} {as : ActiveSound}
    (h : (e.1 == as.sound.id) = false) :
    updateFromMix state (e :: rest) as = updateFromMix state rest as := by
  unfold updateFromMix
  simp only [List.find?, h, Bool.false_eq_true, if_false]

lemma updateFromMix_cons_of_eq {state : AudioState} {e : String × ℚ}
    {rest : List (String × ℚ)} {as : ActiveSound}
    (h : (e.1 == as.sound.id) = true) :
    updateFromMix state (e :: rest) as =
      { as with
        audio := { as.audio with volume := e.2 * state.masterVolume }
        volume := e.2 } := by
  unfold updateFromMix
  simp only [List.find?, h, if_true]

lemma updateFromMix_of_not_mem {state : AudioState} {rest : List (String × ℚ)}
    {as : ActiveSound} (h : as.sound.id ∉ rest.map Prod.fst) :
    updateFromMix state rest as = as := by
  unfold updateFromMix
  rw [find_entry_none h]

lemma applyMixStep_active {sounds : List Sound} {state : AudioState}
    {a : List ActiveSound} {s : List (String × SoundState)} {e : String × ℚ}
    (h : state.activeSounds.any (fun x => x.sound.id == e.1) = true) :
    applyMixStep sounds state (a, s) e =
      (a.map (fun as => if as.sound.id == e.1 then
          { as with
            audio := { as.audio with volume := e.2 * state.masterVolume }
            volume := e.2 }
        else as),
       recSet s e.1
         { volume := e.2 * 100
           isPlaying := match recFind s e.1 with
                        | some ss => ss.isPlaying
                        | none => none }) := by
  simp only [applyMixStep, h, if_true]

lemma applyMixStep_new {sounds : List Sound} {state : AudioState}
    {a : List ActiveSound} {s : List (String × SoundState)} {e : String × ℚ}
    {sound : Sound}
    (h : state.activeSounds.any (fun x => x.sound.id == e.1) = false)
    (hf : sounds.find? (fun snd => snd.id == e.1) = some sound) :
    applyMixStep sounds state (a, s) e =
      (a ++ [{ sound := sound
               audio := { src := sound.audioSrc
                          volume := e.2 * state.masterVolume
                          paused := !state.isPlaying }
               volume := e.2 }],
       recSet s e.1 { volume := e.2 * 100, isPlaying := some state.isPlaying }) := by
  simp only [applyMixStep, h, Bool.false_eq_true, if_false, hf]
  cases hp : state.isPlaying <;> simp [createAudioElement, hp]

lemma applyMixStep_skip {sounds : List Sound} {state : AudioState}
    {a : List ActiveSound} {s : List (String × SoundState)} {e : String × ℚ}
    (h : state.activeSounds.any (fun x => x.sound.id == e.1) = false)
    (hf : sounds.find? (fun snd => snd.id == e.1) = none) :
    applyMixStep sounds state (a, s) e = (a, s) := by
  simp only [applyMixStep, h, Bool.false_eq_true, if_false, hf]

lemma createdFromMix_cons_active {sounds : List Sound} {state : AudioState}
    {e : String × ℚ} {rest : List (String × ℚ)}
    (h : state.activeSounds.any (fun x => x.sound.id == e.1) = true) :
    createdFromMix sounds state (e :: rest) = createdFromMix sounds state rest := by
  unfold createdFromMix
  rw [List.filterMap_cons_none]
  simp [h]

lemma createdFromMix_cons_skip {sounds : List Sound} {state : AudioState}
    {e : String × ℚ} {rest : List (String × ℚ)}
    (h : state.activeSounds.any (fun x => x.sound.id == e.1) = false)
    (hf : sounds.find? (fun snd => snd.id == e.1) = none) :
    createdFromMix sounds state (e :: rest) = createdFromMix sounds state rest := by
  unfold createdFromMix
  rw [List.filterMap_cons_none]
  simp [h, hf]

lemma createdFromMix_cons_new {sounds : List Sound} {state : AudioState}
    {e : String × ℚ} {rest : List (String × ℚ)} {sound : Sound}
    (h : state.activeSounds.any (fun x => x.sound.id == e.1) = false)
    (hf : sounds.find? (fun snd => snd.id == e.1) = some sound) :
    createdFromMix sounds state (e :: rest) =
      { sound := sound
        audio := { src := sound.audioSrc
                   volume := e.2 * state.masterVolume
                   paused := !state.isPlaying }
        volume := e.2 } :: createdFromMix sounds state rest := by
  unfold createdFromMix
  rw [List.filterMap_cons_some]
  simp [h, hf]

lemma applyMix_fold (sounds : List Sound) (state : AudioState)
    (rest : List (String × ℚ)) :
    ∀ (a : List ActiveSound) (s : List (String × SoundState)),
    (rest.map Prod.fst).Nodup →
    (∀ as ∈ a,
      state.activeSounds.any (fun x => x.sound.id == as.sound.id) = true ∨
      as.sound.id ∉ rest.map Prod.fst) →
    (rest.foldl (applyMixStep sounds state) (a, s)).1 =
      a.map (updateFromMix state rest) ++ createdFromMix sounds state rest := by
  induction rest with
  | nil =>
    intro a s _ _
    simp only [List.foldl_nil]
    rw [map_congr_mem (g := fun as => as)
      (fun as _ => updateFromMix_of_not_mem (by simp))]
    simp [createdFromMix]
  | cons e rest ih =>
    intro a s hnd ha
    rw [List.foldl_cons]
    rw [List.map_cons, List.nodup_cons] at hnd
    by_cases hact : state.activeSounds.any (fun x => x.sound.id == e.1) = true
    · rw [applyMixStep_active hact]
      rw [ih _ _ hnd.2 (by
        intro as hmem
        obtain ⟨a0, ha0, rfl⟩ := List.mem_map.mp hmem
        by_cases hc : (a0.sound.id == e.1) = true
        · simp only [hc, if_true]
          rcases ha a0 ha0 with hl | hr
          · exact Or.inl hl
          · exact Or.inr (fun hm => hr (by simpa using Or.inr hm))
        · simp only [hc, Bool.false_eq_true, if_false]
          rcases ha a0 ha0 with hl | hr
          · exact Or.inl hl
          · exact Or.inr (fun hm => hr (by simpa using Or.inr hm)))]
      rw [createdFromMix_cons_active hact, List.map_map]
      congr 1
      apply map_congr_mem
      intro a0 ha0
      by_cases hc : (a0.sound.id == e.1) = true
      · have hid : a0.sound.id = e.1 := by simpa using hc
        have hre : (e.1 == a0.sound.id) = true := by simp [hid]
        rw [updateFromMix_cons_of_eq hre]
        simp only [Function.comp_apply, hc, if_true]
        apply updateFromMix_of_not_mem
        show a0.sound.id ∉ List.map Prod.fst rest
        rw [hid]
        exact hnd.1
      · have hid : a0.sound.id ≠ e.1 := by simpa using hc
        have hre : (e.1 == a0.sound.id) = false := by
          simp only [beq_eq_false_iff_ne, ne_eq]
          exact fun hq => hid hq.symm
        rw [updateFromMix_cons_of_ne hre]
        simp only [Function.comp_apply, hc, Bool.false_eq_true, if_false]
    · have hact2 : state.activeSounds.any (fun x => x.sound.id == e.1) = false := by
        simpa using hact
      have hnotmix : ∀ a0 ∈ a, (e.1 == a0.sound.id) = false := by
        intro a0 ha0
        by_cases hc : (e.1 == a0.sound.id) = true
        · have hid : e.1 = a0.sound.id := by simpa using hc
          rcases ha a0 ha0 with hl | hr
          · rw [← hid] at hl
            rw [hl] at hact2
            simp at hact2
          · exact absurd (by simp [← hid]) hr
        · simpa using hc
      cases hf : sounds.find? (fun snd => snd.id == e.1) with
      | none =>
        rw [applyMixStep_skip hact2 hf]
        rw [ih _ _ hnd.2 (by
          intro as hmem
          rcases ha as hmem with hl | hr
          · exact Or.inl hl
          · exact Or.inr (fun hm => hr (by simpa using Or.inr hm)))]
        rw [createdFromMix_cons_skip hact2 hf]
        congr 1
        apply map_congr_mem
        intro a0 ha0
        rw [updateFromMix_cons_of_ne (hnotmix a0 ha0)]
      | some sound =>
        have hsid : sound.id = e.1 := by simpa using List.find?_some hf
        rw [applyMixStep_new hact2 hf]
        rw [ih _ _ hnd.2 (by
          intro as hmem
          rcases List.mem_append.mp hmem with hmem1 | hmem2
          · rcases ha as hmem1 with hl | hr
            · exact Or.inl hl
            · exact Or.inr (fun hm => hr (by simpa using Or.inr hm))
          · have heq : as = { sound := sound
                              audio := { src := sound.audioSrc
                                         volume := e.2 * state.masterVolume
                                         paused := !state.isPlaying }
                              volume := e.2 } := by simpa using hmem2
            subst heq
            exact Or.inr (by simpa [hsid] using hnd.1))]
        rw [createdFromMix_cons_new hact2 hf, List.map_append]
        rw [map_congr_mem (g := updateFromMix state (e :: rest))
          (fun a0 ha0 => (updateFromMix_cons_of_ne (hnotmix a0 ha0)).symm)]
        have hnew : updateFromMix state rest
            { sound := sound
              audio := { src := sound.audioSrc
                         volume := e.2 * state.masterVolume
                         paused := !state.isPlaying }
              volume := e.2 } =
            { sound := sound
              audio := { src := sound.audioSrc
                         volume := e.2 * state.masterVolume
                         paused := !state.isPlaying }
              volume := e.2 } := by
          apply updateFromMix_of_not_mem
          simpa [hsid] using hnd.1
        rw [List.map_singleton, hnew, List.append_assoc, List.singleton_append]

/-- C7: `APPLY_MIX` removes every active track whose id is not in the mix,
updates the volume of every active track whose id is in the mix (in place),
and appends a freshly created track for every mix id not already active
(given ids distinct and known to the catalog, as presets are trusted to
be); newly created tracks start playing iff `isPlaying` is currently true.
Instantiated at an empty track list this yields exactly the mix's tracks at
the mix volumes. -/
theorem applyMix_characterization (sounds : List Sound) (now : ℤ)
    (state : AudioState) (mix : SoundMix)
    (hnd : (mix.sounds.map Prod.fst).Nodup)
    (hfound : ∀ e ∈ mix.sounds, ∃ snd ∈ sounds, snd.id = e.1) :
    (audioReducer sounds now state (.applyMix mix)).activeSounds =
      (state.activeSounds.filter (fun as =>
        mix.sounds.any (fun e => e.1 == as.sound.id))).map
          (updateFromMix state mix.sounds) ++
      createdFromMix sounds state mix.sounds ∧
    (audioReducer sounds now state (.applyMix mix)).isPlaying = state.isPlaying ∧
    (∀ e ∈ mix.sounds,
      state.activeSounds.any (fun as => as.sound.id == e.1) = false →
      ∃ as ∈ (audioReducer sounds now state (.applyMix mix)).activeSounds,
        as.sound.id = e.1 ∧ as.volume = e.2 ∧ as.audio.paused = !state.isPlaying) := by
  have h1 : (audioReducer sounds now state (.applyMix mix)).activeSounds =
      (state.activeSounds.filter (fun as =>
        mix.sounds.any (fun e => e.1 == as.sound.id))).map
          (updateFromMix state mix.sounds) ++
      createdFromMix sounds state mix.sounds := by
    simp only [audioReducer]
    exact applyMix_fold sounds state mix.sounds _ _ hnd (by
      intro as hmem
      exact Or.inl (List.any_eq_true.mpr ⟨as, List.mem_of_mem_filter hmem, by simp⟩))
  refine ⟨h1, rfl, ?_⟩
  intro e he hne
  cases hf : sounds.find? (fun snd => snd.id == e.1) with
  | none =>
    obtain ⟨snd, hsnd, hsid⟩ := hfound e he
    have hcontra := List.find?_eq_none.mp hf snd hsnd
    simp [hsid] at hcontra
  | some sound =>
    have hsid : sound.id = e.1 := by simpa using List.find?_some hf
    refine ⟨{ sound := sound
              audio := { src := sound.audioSrc
                         volume := e.2 * state.masterVolume
                         paused := !state.isPlaying }
              volume := e.2 }, ?_, hsid, rfl, rfl⟩
    rw [h1]
    apply List.mem_append_right
    exact List.mem_filterMap.mpr ⟨e, he, by simp [hne, hf]⟩

/-- The mix used in the spec's APPLY_MIX example. -/
def rainWindMix : SoundMix :=
  { name := "RainWind"
    description := "rain and wind"
    sounds := [("rain", 1/2), ("wind", 3/10)] }

/-- Witness for C7: applying the rain/wind mix to the empty initial state. -/
theorem applyMix_characterization_witness :
    (rainWindMix.sounds.map Prod.fst).Nodup ∧
    (∀ e ∈ rainWindMix.sounds, ∃ snd ∈ sampleCatalog, snd.id = e.1) ∧
    ((audioReducer sampleCatalog 0 initialAudioState (.applyMix rainWindMix)).activeSounds =
       (initialAudioState.activeSounds.filter (fun as =>
         rainWindMix.sounds.any (fun e => e.1 == as.sound.id))).map
           (updateFromMix initialAudioState rainWindMix.sounds) ++
       createdFromMix sampleCatalog initialAudioState rainWindMix.sounds ∧
     (audioReducer sampleCatalog 0 initialAudioState
        (.applyMix rainWindMix)).isPlaying = initialAudioState.isPlaying ∧
     (∀ e ∈ rainWindMix.sounds,
       initialAudioState.activeSounds.any (fun as => as.sound.id == e.1) = false →
       ∃ as ∈ (audioReducer sampleCatalog 0 initialAudioState
           (.applyMix rainWindMix)).activeSounds,
         as.sound.id = e.1 ∧ as.volume = e.2 ∧
         as.audio.paused = !initialAudioState.isPlaying)) :=
  ⟨by decide, by decide,
   applyMix_characterization sampleCatalog 0 initialAudioState rainWindMix
     (by decide) (by decide)⟩

lemma restoredTrack_paused {sounds : List Sound} {mv : ℚ}
    {kv : String × SoundState} {as : ActiveSound}
    (h : restoredTrack sounds mv kv = some as) : as.audio.paused = true := by
  cases hf : sounds.find? (fun s => s.id == kv.1) with
  | none => simp [restoredTrack, hf] at h
  | some sound =>
    simp only [restoredTrack, hf] at h
    by_cases hv : kv.2.volume > 0
    · rw [if_pos hv] at h
      rw [← Option.some.inj h]
    · rw [if_neg hv] at h
      simp at h

lemma load_fold (sounds : List Sound) (now : ℤ)
    (rest : List (String × SoundState)) :
    ∀ m : Manager,
    m.state.isPlaying = false →
    (∀ kv ∈ rest, ∀ as ∈ m.state.activeSounds, as.sound.id ≠ kv.1) →
    (rest.map Prod.fst).Nodup →
    (∀ kv ∈ rest, recFind m.state.soundStates kv.1 =
       some { volume := kv.2.volume, isPlaying := some false }) →
    (∀ kv ∈ rest, kv.2.volume > 0 →
       recSet m.state.soundStates kv.1
         { volume := kv.2.volume, isPlaying := some false } = m.state.soundStates) →
    m.state.activeSounds.length +
      (rest.filterMap (restoredTrack sounds m.state.masterVolume)).length ≤ 3 →
    ((rest.foldl (fun acc kv =>
        match sounds.find? (fun s => s.id == kv.1) with
        | some sound => if kv.2.volume > 0 then
            dispatchM sounds now acc (.toggleSound sound) else acc
        | none => acc) m).state.activeSounds =
      m.state.activeSounds ++
        rest.filterMap (restoredTrack sounds m.state.masterVolume)) ∧
    ((rest.foldl (fun acc kv =>
        match sounds.find? (fun s => s.id == kv.1) with
        | some sound => if kv.2.volume > 0 then
            dispatchM sounds now acc (.toggleSound sound) else acc
        | none => acc) m).state.soundStates = m.state.soundStates) ∧
    ((rest.foldl (fun acc kv =>
        match sounds.find? (fun s => s.id == kv.1) with
        | some sound => if kv.2.volume > 0 then
            dispatchM sounds now acc (.toggleSound sound) else acc
        | none => acc) m).state.isPlaying = false) ∧
    ((rest.foldl (fun acc kv =>
        match sounds.find? (fun s => s.id == kv.1) with
        | some sound => if kv.2.volume > 0 then
            dispatchM sounds now acc (.toggleSound sound) else acc
        | none => acc) m).state.masterVolume = m.state.masterVolume) := by
  induction rest with
  | nil =>
    intro m hip _ _ _ _ _
    refine ⟨?_, rfl, hip, rfl⟩
    rw [List.foldl_nil, List.filterMap_nil, List.append_nil]
  | cons kv rest ih =>
    intro m hip hact hnd hfind hset hlen6
    rw [List.map_cons, List.nodup_cons] at hnd
    rw [List.foldl_cons]
    cases hf : sounds.find? (fun s => s.id == kv.1) with
    | none =>
      have hres0 : restoredTrack sounds m.state.masterVolume kv = none := by
        simp [restoredTrack, hf]
      simp only [hf]
      rw [List.filterMap_cons, hres0]
      exact ih m hip
        (fun kv' hkv' => hact kv' (List.mem_cons_of_mem kv hkv'))
        hnd.2
        (fun kv' hkv' => hfind kv' (List.mem_cons_of_mem kv hkv'))
        (fun kv' hkv' => hset kv' (List.mem_cons_of_mem kv hkv'))
        (by rw [List.filterMap_cons, hres0] at hlen6; exact hlen6)
    | some sound =>
      simp only [hf]
      by_cases hv : kv.2.volume > 0
      · rw [if_pos hv]
        have hsid : sound.id = kv.1 := by simpa using List.find?_some hf
        have hres : restoredTrack sounds m.state.masterVolume kv =
            some { sound := sound
                   audio := { src := sound.audioSrc
                              volume := (kv.2.volume / 100) * m.state.masterVolume
                              paused := true }
                   volume := kv.2.volume / 100 } := by
          simp [restoredTrack, hf, hv]
        have hany : m.state.activeSounds.any
            (fun as => as.sound.id == sound.id) = false := by
          apply any_id_eq_false
          intro as hmem
          rw [hsid]
          exact hact kv (List.mem_cons_self kv rest) as hmem
        have hlen2 : ¬ m.state.activeSounds.length ≥ MAX_CONCURRENT_SOUNDS := by
          rw [List.filterMap_cons, hres] at hlen6
          simp only [MAX_CONCURRENT_SOUNDS, ge_iff_le, not_le]
          simp only [List.length_cons] at hlen6
          omega
        have hfk := hfind kv (List.mem_cons_self kv rest)
        have hvol : toggleOnVolume m.state sound = kv.2.volume / 100 := by
          simp only [toggleOnVolume, hsid, hfk]
          rw [if_pos hv.ne']
        have hA : (dispatchM sounds now m (.toggleSound sound)).state.activeSounds =
            m.state.activeSounds ++
              [{ sound := sound
                 audio := { src := sound.audioSrc
                            volume := (kv.2.volume / 100) * m.state.masterVolume
                            paused := true }
                 volume := kv.2.volume / 100 }] := by
          show (audioReducer sounds now m.state (.toggleSound sound)).activeSounds = _
          rw [toggle_on_eq hany hlen2]
          show m.state.activeSounds ++ [_] = _
          rw [hip, hvol]
          simp [createAudioElement]
        have hS : (dispatchM sounds now m (.toggleSound sound)).state.soundStates =
            m.state.soundStates := by
          show (audioReducer sounds now m.state (.toggleSound sound)).soundStates = _
          rw [toggle_on_eq hany hlen2]
          show recSet m.state.soundStates sound.id
            { volume := toggleOnVolume m.state sound * 100
              isPlaying := some m.state.isPlaying } = _
          rw [hvol, div_mul_cancel₀ _ (by norm_num : (100:ℚ) ≠ 0), hip, hsid]
          exact hset kv (List.mem_cons_self kv rest) hv
        have hP : (dispatchM sounds now m (.toggleSound sound)).state.isPlaying = false := by
          show (audioReducer sounds now m.state (.toggleSound sound)).isPlaying = false
          rw [toggle_on_eq hany hlen2]
          exact hip
        have hM : (dispatchM sounds now m (.toggleSound sound)).state.masterVolume =
            m.state.masterVolume := by
          show (audioReducer sounds now m.state (.toggleSound sound)).masterVolume = _
          rw [toggle_on_eq hany hlen2]
        obtain ⟨ihA, ihS, ihP, ihM⟩ := ih (dispatchM sounds now m (.toggleSound sound))
          hP
          (by
            intro kv' hkv' as hmem
            rw [hA] at hmem
            rcases List.mem_append.mp hmem with h1 | h2
            · exact hact kv' (List.mem_cons_of_mem kv hkv') as h1
            · have heq : as = { sound := sound
                                audio := { src := sound.audioSrc
                                           volume := (kv.2.volume / 100) * m.state.masterVolume
                                           paused := true }
                                volume := kv.2.volume / 100 } := by simpa using h2
              subst heq
              show sound.id ≠ kv'.1
              rw [hsid]
              intro hk
              exact hnd.1 (hk ▸ List.mem_map.mpr ⟨kv', hkv', rfl⟩)
          )
          hnd.2
          (fun kv' hkv' => by rw [hS]; exact hfind kv' (List.mem_cons_of_mem kv hkv'))
          (fun kv' hkv' hv' => by
            rw [hS]
            exact hset kv' (List.mem_cons_of_mem kv hkv') hv')
          (by
            rw [hA, hM, List.length_append]
            rw [List.filterMap_cons, hres] at hlen6
            simp only [List.length_cons] at hlen6
            simp only [List.length_singleton]
            omega)
        refine ⟨?_, ?_, ihP, ?_⟩
        · rw [ihA, hA, hM, List.filterMap_cons, hres, List.append_assoc,
            List.singleton_append]
        · rw [ihS, hS]
        · rw [ihM, hM]
      · rw [if_neg hv]
        have hres0 : restoredTrack sounds m.state.masterVolume kv = none := by
          simp [restoredTrack, hf, hv]
        rw [List.filterMap_cons, hres0]
        exact ih m hip
          (fun kv' hkv' => hact kv' (List.mem_cons_of_mem kv hkv'))
          hnd.2
          (fun kv' hkv' => hfind kv' (List.mem_cons_of_mem kv hkv'))
          (fun kv' hkv' => hset kv' (List.mem_cons_of_mem kv hkv'))
          (by rw [List.filterMap_cons, hres0] at hlen6; exact hlen6)

/-- C6 (amended): startup restore from persisted settings re-activates
exactly the persisted entries with a positive saved volume whose id the
catalog knows — provided at most 3 such entries exist (the re-activation
goes through `TOGGLE_SOUND` and hence respects the 3-track ceiling) — each
as a paused track at saved volume divided by 100, with global `isPlaying`
false and every restored settings entry marked not playing. -/
theorem startup_restore (sounds : List Sound) (now : ℤ)
    (parsedState : List (String × SoundState))
    (hnd : (parsedState.map Prod.fst).Nodup)
    (hlen : (parsedState.filterMap
        (restoredTrack sounds initialAudioState.masterVolume)).length ≤ 3) :
    (loadSavedState sounds now ⟨initialAudioState, false⟩ parsedState).state.activeSounds =
      parsedState.filterMap (restoredTrack sounds initialAudioState.masterVolume) ∧
    (loadSavedState sounds now ⟨initialAudioState, false⟩ parsedState).state.isPlaying =
      false ∧
    (loadSavedState sounds now ⟨initialAudioState, false⟩ parsedState).state.soundStates =
      parsedState.map (fun kv =>
        ((kv.1 : String),
         ({ volume := kv.2.volume, isPlaying := some false } : SoundState))) ∧
    (∀ as ∈ (loadSavedState sounds now
        ⟨initialAudioState, false⟩ parsedState).state.activeSounds,
      as.audio.paused = true) := by
  have hnd2 : ((parsedState.map (fun kv =>
      ((kv.1 : String),
       ({ volume := kv.2.volume, isPlaying := some false } : SoundState)))).map
        Prod.fst).Nodup := by
    rw [List.map_map]
    exact hnd
  obtain ⟨ihA, ihS, ihP, ihM⟩ := load_fold sounds now parsedState
    ({ state := { initialAudioState with
         soundStates := parsedState.map (fun kv =>
           ((kv.1 : String),
            ({ volume := kv.2.volume, isPlaying := some false } : SoundState)))
         isPlaying := false }
       timerRunning := false })
    rfl
    (fun _ _ as hmem => absurd hmem (List.not_mem_nil as))
    hnd
    (fun kv hkv => recFind_of_mem_nodup hnd2 (List.mem_map.mpr ⟨kv, hkv, rfl⟩))
    (fun kv hkv _ => recSet_eq_self hnd2 (List.mem_map.mpr ⟨kv, hkv, rfl⟩))
    (by simpa [initialAudioState] using hlen)
  have h1 : (loadSavedState sounds now
      ⟨initialAudioState, false⟩ parsedState).state.activeSounds =
      parsedState.filterMap (restoredTrack sounds initialAudioState.masterVolume) := by
    show (parsedState.foldl (fun (acc : Manager) (kv : String × SoundState) =>
        match sounds.find? (fun (s : Sound) => s.id == kv.1) with
        | some sound => if kv.2.volume > 0 then
            dispatchM sounds now acc (.toggleSound sound) else acc
        | none => acc)
      ({ state := { initialAudioState with
           soundStates := parsedState.map (fun kv =>
             ((kv.1 : String),
              ({ volume := kv.2.volume, isPlaying := some false } : SoundState)))
           isPlaying := false }
         timerRunning := false })).state.activeSounds = _
    rw [ihA]
    rfl
  refine ⟨h1, rfl, ?_, ?_⟩
  · show (parsedState.foldl (fun (acc : Manager) (kv : String × SoundState) =>
        match sounds.find? (fun (s : Sound) => s.id == kv.1) with
        | some sound => if kv.2.volume > 0 then
            dispatchM sounds now acc (.toggleSound sound) else acc
        | none => acc)
      ({ state := { initialAudioState with
           soundStates := parsedState.map (fun kv =>
             ((kv.1 : String),
              ({ volume := kv.2.volume, isPlaying := some false } : SoundState)))
           isPlaying := false }
         timerRunning := false })).state.soundStates = _
    rw [ihS]
  · intro as hmem
    rw [h1] at hmem
    obtain ⟨kv, _, hkv⟩ := List.mem_filterMap.mp hmem
    exact restoredTrack_paused hkv

/-- The persisted settings of the spec's restore example. -/
def rainParsed : List (String × SoundState) :=
  [("rain", { volume := 50, isPlaying := some true })]

/-- Witness for C6 at the spec's example `{rain: {volume: 50, wasPlaying: true}}`. -/
theorem startup_restore_witness :
    (rainParsed.map Prod.fst).Nodup ∧
    (rainParsed.filterMap
      (restoredTrack sampleCatalog initialAudioState.masterVolume)).length ≤ 3 ∧
    ((loadSavedState sampleCatalog 0 ⟨initialAudioState, false⟩ rainParsed).state.activeSounds =
       rainParsed.filterMap (restoredTrack sampleCatalog initialAudioState.masterVolume) ∧
     (loadSavedState sampleCatalog 0
        ⟨initialAudioState, false⟩ rainParsed).state.isPlaying = false ∧
     (loadSavedState sampleCatalog 0
        ⟨initialAudioState, false⟩ rainParsed).state.soundStates =
       rainParsed.map (fun kv =>
         ((kv.1 : String),
          ({ volume := kv.2.volume, isPlaying := some false } : SoundState))) ∧
     (∀ as ∈ (loadSavedState sampleCatalog 0
         ⟨initialAudioState, false⟩ rainParsed).state.activeSounds,
       as.audio.paused = true)) :=
  ⟨by decide, by decide, startup_restore sampleCatalog 0 rainParsed (by decide) (by decide)⟩

/-- Four persisted entries with positive volume, all known to the catalog. -/
def fourSavedState : List (String × SoundState) :=
  [("rain", { volume := 50, isPlaying := some true }),
   ("wind", { volume := 60, isPlaying := some false }),
   ("fire", { volume := 70, isPlaying := some true }),
   ("birds", { volume := 80, isPlaying := some false })]

/-- Counterexample for C6 as stated: with four persisted positive-volume
sounds (reachable, since `SET_VOLUME` can create settings entries for
inactive sounds), restore re-activates only the first three — "birds" has a
positive saved volume and is in the catalog but gets no active track, so
restore does not re-activate exactly the positively-saved sounds. -/
theorem startup_restore_counterexample :
    ("birds", ({ volume := 80, isPlaying := some false } : SoundState)) ∈ fourSavedState ∧
    (80 : ℚ) > 0 ∧
    birdS ∈ sampleCatalog ∧
    birdS.id = "birds" ∧
    (loadSavedState sampleCatalog 0
        ⟨initialAudioState, false⟩ fourSavedState).state.activeSounds.map
      (fun as => as.sound.id) = ["rain", "wind", "fire"] ∧
    "birds" ∉ (loadSavedState sampleCatalog 0
        ⟨initialAudioState, false⟩ fourSavedState).state.activeSounds.map
      (fun as => as.sound.id) := by
  refine ⟨by decide, by decide, by decide, rfl, by decide, by decide⟩
